import Mathlib

/-!
Verification of the landmark entity-resolution engine of the
multilingual-tour-guide repository.

The engine lives in the image-processing Lambda (`normalizeLandmarkName`,
`calculateSimilarity`, `isLandmarkRelatedLabel`, `identifyLandmark`) with a
second copy of `normalizeLandmarkName` in the seeding Lambda
(`backend/lambda/dynamo_data/index.js`).

Modelling choices (shallow embedding):
* JS strings are modelled as lists of code points (`List Nat`); the helper
  `S` turns a Lean string literal into that representation.  All registry
  data is ASCII, so code points coincide with UTF-16 code units.
* JS numbers carrying confidences and scores are modelled as rationals `ℚ`;
  the literals 0.7, 0.4, 0.9 ... become the exact rationals 7/10, 2/5, 9/10.
* `String.prototype.toLowerCase` on the ASCII data used here maps code
  points 65-90 to 97-122 and fixes everything else (`jsToLower`).
* `\s` (and the character set removed by `trim`) is the ECMAScript
  WhiteSpace/LineTerminator set (`jsIsSpace`); `replace(/\s+/g, '')`
  removes exactly the whitespace characters, i.e. acts as a filter.
* `split(/\W+/)` followed by dropping empty tokens yields the maximal runs
  of word characters `[A-Za-z0-9_]` (`wordsOf`).
* `Array.prototype.sort` with comparator `(a, b) => b.Confidence -
  a.Confidence` is a stable descending sort on confidence; it is modelled
  by a stable insertion sort (`sortDesc`).
* The pipeline's Rekognition call is external input: `identifyLandmark`
  takes the detected label list directly.  The `detectedLabels` field
  (a copy of the input) is omitted from the result record; fields absent
  on a JS result object (`rawLandmarkName`, `similarityScore`,
  `matchScore` and, for the no-match result, `confidence`) are modelled
  as `none` / `0`.
-/

/-- Code points of a Lean string literal, used to write down the JS string
data that appears in the source. -/
def S (s : String) : List Nat := s.data.map Char.toNat

/-- Code points matched by ECMAScript `\s` (WhiteSpace ∪ LineTerminator),
which is also exactly the set stripped by `String.prototype.trim`. -/
def wsCodes : List Nat :=
  [9, 10, 11, 12, 13, 32, 160, 5760, 8192, 8193, 8194, 8195, 8196, 8197,
   8198, 8199, 8200, 8201, 8202, 8232, 8233, 8239, 8287, 12288, 65279]

/-- Membership in the ECMAScript whitespace class. -/
def jsIsSpace (c : Nat) : Bool := decide (c ∈ wsCodes)

/-- `toLowerCase` on one code point (ASCII range, which covers all data in
the source). -/
def jsToLower (c : Nat) : Nat := if 65 ≤ c ∧ c ≤ 90 then c + 32 else c

/-- ECMAScript word characters `[A-Za-z0-9_]` (the complement of `\W`). -/
def isWordChar (c : Nat) : Bool :=
  decide ((97 ≤ c ∧ c ≤ 122) ∨ (65 ≤ c ∧ c ≤ 90) ∨ (48 ≤ c ∧ c ≤ 57) ∨ c = 95)

/-- `big.includes(small)` for JS strings: `small` occurs as a contiguous
substring of `big` (the empty string occurs in everything). -/
def strIncludes : List Nat → List Nat → Bool
  | [], small => small.isEmpty
  | b :: t, small => small.isPrefixOf (b :: t) || strIncludes t small

/-- Accumulator-based splitter behind `wordsOf`; `cur` holds the current
run of word characters in reverse. -/
def splitWordsGo : List Nat → List Nat → List (List Nat)
  | cur, [] => if cur.isEmpty then [] else [cur.reverse]
  | cur, c :: t =>
    if isWordChar c then splitWordsGo (c :: cur) t
    else if cur.isEmpty then splitWordsGo [] t
    else cur.reverse :: splitWordsGo [] t

/-- `s.split(/\W+/).filter(w => w.length > 0)`: the maximal runs of word
characters of `s`. -/
def wordsOf (s : List Nat) : List (List Nat) := splitWordsGo [] s

/-- `normalizeLandmarkName` from the image-processing Lambda:
returns `''` for falsy input, otherwise lower-cases and removes every
whitespace character (`.toLowerCase().replace(/\s+/g, '')`). -/
def normalizeLandmarkName (name : List Nat) : List Nat :=
  if name.isEmpty then []
  else (name.map jsToLower).filter (fun c => !jsIsSpace c)

/-- `String.prototype.trim`: drop ECMAScript whitespace from both ends. -/
def trimJs (s : List Nat) : List Nat :=
  ((s.dropWhile jsIsSpace).reverse.dropWhile jsIsSpace).reverse

namespace DynamoData

/-- `normalizeLandmarkName` from the seeding Lambda
(`dynamo_data/index.js`): identical except that it also calls `.trim()`
between lower-casing and whitespace removal. -/
def normalizeLandmarkName (name : List Nat) : List Nat :=
  if name.isEmpty then []
  else (trimJs (name.map jsToLower)).filter (fun c => !jsIsSpace c)

end DynamoData

/-- `Math.min` on two numbers (kernel-reducible, unlike the lattice `⊓`). -/
def mathMin (a b : ℚ) : ℚ := if a ≤ b then a else b

/-- `Math.max` on two numbers (kernel-reducible, unlike the lattice `⊔`). -/
def mathMax (a b : ℚ) : ℚ := if a ≤ b then b else a

/-- Addition of two scores.  `Rat.add` is `@[irreducible]`, so the
embedding computes sums through `Rat.divInt`, which the kernel can
evaluate; `qadd_eq` identifies it with `+`. -/
def qadd (a b : ℚ) : ℚ :=
  Rat.divInt (a.num * b.den + b.num * a.den) ((a.den : Int) * b.den)

/-- Multiplication of two scores, kernel-reducible (see `qadd`). -/
def qmul (a b : ℚ) : ℚ := Rat.divInt (a.num * b.num) ((a.den : Int) * b.den)

/-- Division of two scores, kernel-reducible (see `qadd`); like JS
division of the values occurring here it sends a zero divisor to 0 only
in the degenerate cases the algorithm already guards. -/
def qdiv (a b : ℚ) : ℚ :=
  Rat.divInt (a.num * (b.den : Int)) (b.num * (a.den : Int))

theorem qadd_eq (a b : ℚ) : qadd a b = a + b := by
  have had : ((a.den : ℚ)) ≠ 0 := by exact_mod_cast a.den_nz
  have hbd : ((b.den : ℚ)) ≠ 0 := by exact_mod_cast b.den_nz
  rw [qadd, Rat.divInt_eq_div]
  conv_rhs => rw [← Rat.num_div_den a, ← Rat.num_div_den b]
  push_cast
  field_simp

theorem qmul_eq (a b : ℚ) : qmul a b = a * b := by
  have had : ((a.den : ℚ)) ≠ 0 := by exact_mod_cast a.den_nz
  have hbd : ((b.den : ℚ)) ≠ 0 := by exact_mod_cast b.den_nz
  rw [qmul, Rat.divInt_eq_div]
  conv_rhs => rw [← Rat.num_div_den a, ← Rat.num_div_den b]
  push_cast
  field_simp

theorem qdiv_eq (a b : ℚ) : qdiv a b = a / b := by
  rcases eq_or_ne b 0 with rfl | hb
  · simp [qdiv]
  · have hbn : (b.num : ℚ) ≠ 0 := by exact_mod_cast Rat.num_ne_zero.mpr hb
    have had : ((a.den : ℚ)) ≠ 0 := by exact_mod_cast a.den_nz
    have hbd : ((b.den : ℚ)) ≠ 0 := by exact_mod_cast b.den_nz
    rw [qdiv, Rat.divInt_eq_div]
    conv_rhs => rw [← Rat.num_div_den a, ← Rat.num_div_den b]
    push_cast
    rw [div_div_div_comm]
    field_simp

/-- Inner loop of the word-overlap step of `calculateSimilarity`: does
`w1` find a partner in `words2`?  Tokens of length ≤ 2 on the second side
are skipped (`continue`); a partner is an equal, contained or containing
token, and the loop `break`s at the first one. -/
def wordMatches (w1 : List Nat) (words2 : List (List Nat)) : Bool :=
  words2.any fun w2 =>
    !(decide (w2.length ≤ 2)) &&
      (w1 == w2 || strIncludes w1 w2 || strIncludes w2 w1)

/-- Outer loop of the word-overlap step: count the first-side tokens of
length > 2 that find a partner.  Note the denominator of the overlap
ratio in `calculateSimilarity` uses the unfiltered lists. -/
def matchCount : List (List Nat) → List (List Nat) → Nat
  | [], _ => 0
  | w1 :: rest, words2 =>
    if w1.length ≤ 2 then matchCount rest words2
    else if wordMatches w1 words2 then matchCount rest words2 + 1
    else matchCount rest words2

/-- `calculateSimilarity(str1, str2)` from the image-processing Lambda:
exact-match / containment / word-overlap cascade returning a score in
`[0, 1]`. -/
def calculateSimilarity (str1 str2 : List Nat) : ℚ :=
  let normalizedStr1 := normalizeLandmarkName str1
  let normalizedStr2 := normalizeLandmarkName str2
  if normalizedStr1 = normalizedStr2 then 1
  else if strIncludes normalizedStr1 normalizedStr2 ∨
          strIncludes normalizedStr2 normalizedStr1 then
    mathMax (mkRat 7 10)
      (qdiv (mathMin (normalizedStr1.length : ℚ) (normalizedStr2.length : ℚ))
        (mathMax (normalizedStr1.length : ℚ) (normalizedStr2.length : ℚ)))
  else
    let words1 := wordsOf normalizedStr1
    let words2 := wordsOf normalizedStr2
    if 1 < words1.length ∨ 1 < words2.length then
      let overlapScore : ℚ :=
        qdiv (matchCount words1 words2 : ℚ)
          (mathMax (words1.length : ℚ) (words2.length : ℚ))
      if 0 < overlapScore then
        mathMin (mkRat 9 10) (qadd (mkRat 1 2) (qmul overlapScore (mkRat 2 5)))
      else 0
    else 0

/-- Keyword vocabulary of `isLandmarkRelatedLabel`. -/
def landmarkKeywords : List (List Nat) :=
  [S "landmark", S "monument", S "tower", S "statue", S "temple",
   S "palace", S "castle", S "cathedral", S "church", S "mosque",
   S "pyramid", S "ruins", S "historical", S "heritage", S "ancient",
   S "architecture", S "wonder", S "famous", S "tourist", S "attraction",
   S "site", S "building", S "structure"]

/-- `isLandmarkRelatedLabel(label)`: the normalized label contains some
term of the keyword vocabulary. -/
def isLandmarkRelatedLabel (label : List Nat) : Bool :=
  landmarkKeywords.any fun keyword =>
    strIncludes (normalizeLandmarkName label) keyword

example : S "ab_C" = [97, 98, 95, 67] := by decide
example : normalizeLandmarkName (S "  EIFFEL   TOWER ") = S "eiffeltower" := by decide
example : wordsOf (S "x-great-wall") = [S "x", S "great", S "wall"] := by decide
example : calculateSimilarity (S "Eiffel") (S "Eiffel Tower") = mkRat 7 10 := by decide
example : calculateSimilarity (S "x-great-wall") (S "great wall of china") = mkRat 23 30 := by decide
example : calculateSimilarity (S "") (S "Eiffel Tower") = mkRat 7 10 := by decide
example : isLandmarkRelatedLabel (S "Ancient Ruins") = true := by decide
example : isLandmarkRelatedLabel (S "Dog") = false := by decide

/-- One entry of the static landmark registry (`landmarkDefinitions` in
`identifyLandmark`). -/
structure LandmarkDef where
  primaryName : List Nat
  alternativeNames : List (List Nat)
  keywords : List (List Nat)
deriving DecidableEq

/-- The ten `landmarkDefinitions` hard-coded in `identifyLandmark`. -/
def landmarkDefinitions : List LandmarkDef :=
  [⟨S "Eiffel Tower",
    [S "Tour Eiffel", S "Iron Lady", S "La Tour Eiffel"],
    [S "paris", S "france", S "iron", S "tower"]⟩,
   ⟨S "Statue of Liberty",
    [S "Liberty Enlightening the World", S "Lady Liberty"],
    [S "new york", S "liberty island", S "usa", S "america"]⟩,
   ⟨S "Colosseum",
    [S "Coliseum", S "Flavian Amphitheatre", S "Roman Colosseum"],
    [S "rome", S "italy", S "arena", S "amphitheater", S "gladiator"]⟩,
   ⟨S "Great Wall of China",
    [S "Great Wall", S "Chinese Wall"],
    [S "china", S "wall", S "beijing", S "defense"]⟩,
   ⟨S "Machu Picchu",
    [S "Lost City of the Incas"],
    [S "peru", S "inca", S "ruins", S "andes"]⟩,
   ⟨S "Pyramids of Giza",
    [S "Great Pyramid", S "Egyptian Pyramids", S "Pyramid of Khufu"],
    [S "egypt", S "pyramid", S "pharaoh", S "cairo", S "sphinx"]⟩,
   ⟨S "Taj Mahal",
    [S "Crown of Palaces"],
    [S "india", S "agra", S "mausoleum", S "marble", S "mughal"]⟩,
   ⟨S "Big Ben",
    [S "Elizabeth Tower", S "Clock Tower", S "Westminster Clock"],
    [S "london", S "england", S "uk", S "parliament", S "westminster",
     S "clock"]⟩,
   ⟨S "Sydney Opera House",
    [S "Opera House"],
    [S "sydney", S "australia", S "harbor", S "theatre", S "concert hall"]⟩,
   ⟨S "Mount Fuji",
    [S "Fujisan", S "Fuji-san", S "Fujiyama"],
    [S "japan", S "mountain", S "volcano", S "peak"]⟩]

/-- `popularDestinations`: the primary names, used for the exact pass. -/
def popularDestinations : List (List Nat) :=
  landmarkDefinitions.map (·.primaryName)

/-- One detected label handed to the pipeline: `{ Name, Confidence }`. -/
structure Label where
  name : List Nat
  confidence : ℚ
deriving DecidableEq

/-- The `matchType` strings of the result objects of `identifyLandmark`
(`"exact"`, `"alternative"`, `"similarity"`, `"keyword"`, `"unknown"`),
plus `noMatch` for the no-landmark result, which carries no `matchType`. -/
inductive MatchTier where
  | exact
  | alternative
  | similarity
  | keyword
  | unknown
  | noMatch
deriving DecidableEq

/-- Result record of `identifyLandmark` (the `detectedLabels` echo of the
input is omitted; fields a branch does not set are `none`, and the
no-match result's missing confidence is 0, the value the HTTP handler
substitutes for it). -/
structure MatchResult where
  isLandmark : Bool
  landmarkName : List Nat
  rawLandmarkName : Option (List Nat)
  matchType : MatchTier
  confidence : ℚ
  similarityScore : Option ℚ
  matchScore : Option ℚ
deriving DecidableEq

/-- Result of the first (exact) pass for a winning label. -/
def exactResult (l : Label) : MatchResult :=
  { isLandmark := true
    landmarkName := normalizeLandmarkName l.name
    rawLandmarkName := some l.name
    matchType := .exact
    confidence := l.confidence
    similarityScore := none
    matchScore := none }

/-- First pass of `identifyLandmark`: the first label in input order whose
raw name equals a primary name and whose confidence is at least 75. -/
def tier1 : List Label → Option MatchResult
  | [] => none
  | l :: rest =>
    if l.name ∈ popularDestinations ∧ 75 ≤ l.confidence then
      some (exactResult l)
    else tier1 rest

/-- Result of the second (alternative-name) pass: the matching
definition's primary name with the label's confidence. -/
def altResult (primary : List Nat) (conf : ℚ) : MatchResult :=
  { isLandmark := true
    landmarkName := normalizeLandmarkName primary
    rawLandmarkName := some primary
    matchType := .alternative
    confidence := conf
    similarityScore := none
    matchScore := none }

/-- Inner loop of the second pass: scan the definitions for one whose
alternative names contain the label's raw name (confidence ≥ 75). -/
def findAlt (l : Label) : List LandmarkDef → Option MatchResult
  | [] => none
  | d :: rest =>
    if l.name ∈ d.alternativeNames ∧ 75 ≤ l.confidence then
      some (altResult d.primaryName l.confidence)
    else findAlt l rest

/-- Second pass of `identifyLandmark`: alternative-name matches, labels
in input order, definitions in registry order. -/
def tier2 : List Label → Option MatchResult
  | [] => none
  | l :: rest =>
    match findAlt l landmarkDefinitions with
    | some r => some r
    | none => tier2 rest

/-- Best similarity of a label name against one definition: similarity to
the primary name, improved by strictly better alternative-name scores. -/
def pairSim (name : List Nat) (d : LandmarkDef) : ℚ :=
  d.alternativeNames.foldl
    (fun s alt =>
      let a := calculateSimilarity name alt
      if s < a then a else s)
    (calculateSimilarity name d.primaryName)

/-- One definition step of the third pass: accept the definition when the
similarity is at least 0.7 and the combined score (similarity times
confidence / 100) strictly beats the best so far. -/
def tier3Step (conf : ℚ) (name : List Nat)
    (st : Option (List Nat) × ℚ × ℚ) (d : LandmarkDef) :
    Option (List Nat) × ℚ × ℚ :=
  let similarityScore := pairSim name d
  let combinedScore := qmul similarityScore (qdiv conf ((100 : ℕ) : ℚ))
  if mkRat 7 10 ≤ similarityScore ∧ st.2.1 < combinedScore then
    (some d.primaryName, combinedScore, conf)
  else st

/-- State of the third pass after all labels: best match, best combined
score, and that label's confidence (`bestMatch`/`bestScore`/
`bestConfidence` in the source). -/
def tier3Fold (labels : List Label) : Option (List Nat) × ℚ × ℚ :=
  labels.foldl
    (fun st l =>
      if l.confidence < 70 then st
      else landmarkDefinitions.foldl (tier3Step l.confidence l.name) st)
    (none, 0, 0)

/-- Result of the third (similarity) pass.  Note that the field named
`similarityScore` receives `bestScore`, the confidence-weighted combined
score. -/
def simResult (nm : List Nat) (score conf : ℚ) : MatchResult :=
  { isLandmark := true
    landmarkName := normalizeLandmarkName nm
    rawLandmarkName := some nm
    matchType := .similarity
    confidence := conf
    similarityScore := some score
    matchScore := none }

/-- Third pass of `identifyLandmark`. -/
def tier3 (labels : List Label) : Option MatchResult :=
  match tier3Fold labels with
  | (some nm, score, conf) => some (simResult nm score conf)
  | (none, _, _) => none

/-- `landmarkLabels` of the fourth pass: landmark-related labels with
confidence at least 85. -/
def landmarkLabelsOf (labels : List Label) : List Label :=
  labels.filter fun l =>
    isLandmarkRelatedLabel l.name ∧ 85 ≤ l.confidence

/-- The generic label names excluded from `nonGenericLabels`. -/
def genericNames : List (List Nat) :=
  [S "Landmark", S "Monument", S "Architecture", S "Building",
   S "Structure"]

/-- `nonGenericLabels` of the fourth pass: every label (not only the
landmark-related ones) whose name is not generic and whose confidence is
at least 75. -/
def nonGenericOf (labels : List Label) : List Label :=
  labels.filter fun l => l.name ∉ genericNames ∧ 75 ≤ l.confidence

/-- Stable insertion of a label into a list sorted by descending
confidence.  The element being inserted occurred earlier in the input
than everything already in the sorted tail (the sort folds from the
right), so it goes after the strictly greater confidences and before
any element of equal or smaller confidence. -/
def insertDesc (l : Label) : List Label → List Label
  | [] => [l]
  | x :: t =>
    if l.confidence < x.confidence then x :: insertDesc l t
    else l :: x :: t

/-- Stable descending sort by confidence, modelling
`sort((a, b) => b.Confidence - a.Confidence)`. -/
def sortDesc : List Label → List Label
  | [] => []
  | a :: t => insertDesc a (sortDesc t)

/-- `nonGenericLabels` after the sort; `bestLabel` is its head. -/
def sortedNonGeneric (labels : List Label) : List Label :=
  sortDesc (nonGenericOf labels)

/-- One definition step of the keyword scoring loop: first try to beat
the best score with the similarity to the primary name, then with the
fraction of the definition's keywords contained in the normalized label
(comparing against the just-updated best). -/
def keywordStep (name : List Nat) (st : Option (List Nat) × ℚ)
    (d : LandmarkDef) : Option (List Nat) × ℚ :=
  let similarityScore := calculateSimilarity name d.primaryName
  let st1 := if st.2 < similarityScore then (some d.primaryName, similarityScore) else st
  let normalizedLabel := normalizeLandmarkName name
  let keywordMatches := d.keywords.filter fun keyword =>
    strIncludes normalizedLabel (normalizeLandmarkName keyword)
  if 0 < keywordMatches.length ∧
      st1.2 < qdiv ((keywordMatches.length : ℕ) : ℚ) ((d.keywords.length : ℕ) : ℚ) then
    (some d.primaryName, qdiv ((keywordMatches.length : ℕ) : ℚ) ((d.keywords.length : ℕ) : ℚ))
  else st1

/-- Keyword scoring of `bestLabel` against every definition
(`bestLandmarkMatch`/`bestMatchScore` in the source). -/
def keywordFold (name : List Nat) : Option (List Nat) × ℚ :=
  landmarkDefinitions.foldl (keywordStep name) (none, 0)

/-- Result of the keyword branch of the fourth pass. -/
def keywordResult (nm : List Nat) (best : Label) (score : ℚ) : MatchResult :=
  { isLandmark := true
    landmarkName := normalizeLandmarkName nm
    rawLandmarkName := some nm
    matchType := .keyword
    confidence := best.confidence
    similarityScore := none
    matchScore := some score }

/-- Result of the unknown-landmark branch of the fourth pass. -/
def unknownResult (best : Label) : MatchResult :=
  { isLandmark := true
    landmarkName := normalizeLandmarkName best.name
    rawLandmarkName := some best.name
    matchType := .unknown
    confidence := best.confidence
    similarityScore := none
    matchScore := none }

/-- Unknown-landmark branch: fires when `bestLabel` has confidence at
least 85 and at least two landmark-related labels were found. -/
def unknownAttempt (labels : List Label) (best : Label) : Option MatchResult :=
  if 85 ≤ best.confidence ∧ 2 ≤ (landmarkLabelsOf labels).length then
    some (unknownResult best)
  else none

/-- Fourth pass of `identifyLandmark` (keyword/context matching followed
by the unknown-landmark fallback). -/
def pass4 (labels : List Label) : Option MatchResult :=
  if 0 < (landmarkLabelsOf labels).length then
    match (sortedNonGeneric labels).head? with
    | none => none
    | some best =>
      match keywordFold best.name with
      | (some nm, score) =>
        if mkRat 3 10 ≤ score then some (keywordResult nm best score)
        else unknownAttempt labels best
      | (none, _) => unknownAttempt labels best
  else none

/-- The no-landmark result (`isLandmark: false`, `landmarkName:
"Unknown Landmark"`, no raw name, no scores). -/
def noMatchResult : MatchResult :=
  { isLandmark := false
    landmarkName := S "Unknown Landmark"
    rawLandmarkName := none
    matchType := .noMatch
    confidence := 0
    similarityScore := none
    matchScore := none }

/-- `identifyLandmark`, as a function of the detected label list: the
four passes in order, else the no-landmark result. -/
def identifyLandmark (labels : List Label) : MatchResult :=
  match tier1 labels with
  | some r => r
  | none =>
    match tier2 labels with
    | some r => r
    | none =>
      match tier3 labels with
      | some r => r
      | none =>
        match pass4 labels with
        | some r => r
        | none => noMatchResult

example : identifyLandmark [⟨S "Eiffel Tower", 96⟩] =
    exactResult ⟨S "Eiffel Tower", 96⟩ := by decide
example : identifyLandmark [⟨S "Tour Eiffel", 80⟩] =
    altResult (S "Eiffel Tower") 80 := by decide
example : identifyLandmark [⟨S "eiffel tower", 90⟩] =
    simResult (S "Eiffel Tower") (mkRat 9 10) 90 := by decide
example : identifyLandmark [⟨S "Eiffel", 80⟩] =
    simResult (S "Eiffel Tower") (mkRat 14 25) 80 := by decide
set_option maxRecDepth 4000 in
example : identifyLandmark [⟨S "", 80⟩] =
    simResult (S "Eiffel Tower") (mkRat 14 25) 80 := by decide
set_option maxRecDepth 4000 in
example : identifyLandmark [⟨S "Dog", 99⟩] = noMatchResult := by decide
example : identifyLandmark [] = noMatchResult := by decide
set_option maxRecDepth 8000 in
example : identifyLandmark [⟨S "Ancient Ruins", 90⟩, ⟨S "Historical Site", 88⟩] =
    unknownResult ⟨S "Ancient Ruins", 90⟩ := by decide
set_option maxRecDepth 8000 in
example : identifyLandmark
    [⟨S "Ancient Ruins", 90⟩, ⟨S "Historical Site", 88⟩, ⟨S "Dog", 95⟩] =
    unknownResult ⟨S "Dog", 95⟩ := by decide

/-! Helper lemmas about the normalizer. -/

theorem normalizeLandmarkName_eq (x : List Nat) :
    normalizeLandmarkName x = (x.map jsToLower).filter (fun c => !jsIsSpace c) := by
  cases x <;> rfl

theorem jsToLower_idem (c : Nat) : jsToLower (jsToLower c) = jsToLower c := by
  unfold jsToLower
  by_cases h : 65 ≤ c ∧ c ≤ 90
  · simp only [if_pos h]
    rw [if_neg (by omega)]
  · simp only [if_neg h]

theorem jsIsSpace_of_range (c : Nat) (h1 : 65 ≤ c) (h2 : c ≤ 122) :
    jsIsSpace c = false := by
  simp [jsIsSpace, wsCodes]
  omega

theorem jsIsSpace_toLower (c : Nat) :
    jsIsSpace (jsToLower c) = jsIsSpace c := by
  unfold jsToLower
  split
  · rw [jsIsSpace_of_range c (by omega) (by omega),
      jsIsSpace_of_range (c + 32) (by omega) (by omega)]
  · rfl

theorem filter_dropWhile {α : Type} (q : α → Bool) (l : List α) :
    (l.dropWhile q).filter (fun c => !q c) = l.filter (fun c => !q c) := by
  induction l with
  | nil => rfl
  | cons a t ih =>
    by_cases h : q a
    · rw [List.dropWhile_cons_of_pos h, ih, List.filter_cons]
      simp [h]
    · rw [List.dropWhile_cons_of_neg h]

theorem filter_trimJs (s : List Nat) :
    (trimJs s).filter (fun c => !jsIsSpace c) = s.filter (fun c => !jsIsSpace c) := by
  rw [trimJs, List.filter_reverse, filter_dropWhile, List.filter_reverse,
    List.reverse_reverse, filter_dropWhile]

theorem filter_map_toLower (x : List Nat) :
    (x.map jsToLower).filter (fun c => !jsIsSpace c) =
      (x.filter (fun c => !jsIsSpace c)).map jsToLower := by
  induction x with
  | nil => rfl
  | cons a t ih =>
    simp only [List.map_cons, List.filter_cons, jsIsSpace_toLower]
    by_cases h : jsIsSpace a
    · simp [h, ih]
    · simp [h, ih]

theorem jsToLower_comp : jsToLower ∘ jsToLower = jsToLower :=
  funext jsToLower_idem

theorem normalizeLandmarkName_idem (x : List Nat) :
    normalizeLandmarkName (normalizeLandmarkName x) = normalizeLandmarkName x := by
  simp only [normalizeLandmarkName_eq, filter_map_toLower, List.map_map,
    jsToLower_comp, List.filter_filter, Bool.and_self]

theorem normalize_map_toLower (x : List Nat) :
    normalizeLandmarkName (x.map jsToLower) = normalizeLandmarkName x := by
  simp only [normalizeLandmarkName_eq, List.map_map, jsToLower_comp]

theorem normalize_trim (x : List Nat) :
    normalizeLandmarkName (trimJs x) = normalizeLandmarkName x := by
  rw [normalizeLandmarkName_eq, normalizeLandmarkName_eq, filter_map_toLower,
    filter_trimJs, ← filter_map_toLower]

theorem normalize_no_space (x : List Nat) (c : Nat)
    (hc : c ∈ normalizeLandmarkName x) : jsIsSpace c = false := by
  rw [normalizeLandmarkName_eq] at hc
  have := (List.mem_filter.mp hc).2
  simpa using this

/-- C8: `normalizeLandmarkName` is total, returns the empty string on
empty input, lower-cases, trims, and removes all whitespace (its output
contains no whitespace character, and pre-lower-casing or pre-trimming
the input does not change the output), and it is idempotent; the two
spellings of "Eiffel Tower" from the spec normalize identically. -/
theorem claim_C8_normalizer :
    normalizeLandmarkName [] = [] ∧
    (∀ x, normalizeLandmarkName (normalizeLandmarkName x) =
      normalizeLandmarkName x) ∧
    (∀ x, normalizeLandmarkName (x.map jsToLower) = normalizeLandmarkName x) ∧
    (∀ x, normalizeLandmarkName (trimJs x) = normalizeLandmarkName x) ∧
    (∀ x c, c ∈ normalizeLandmarkName x → jsIsSpace c = false) ∧
    normalizeLandmarkName (S "Eiffel Tower") =
      normalizeLandmarkName (S "  EIFFEL   TOWER ") :=
  ⟨rfl, normalizeLandmarkName_idem, normalize_map_toLower, normalize_trim,
   normalize_no_space, by decide⟩

theorem claim_C8_witness :
    jsIsSpace 101 = false ∧
    normalizeLandmarkName (normalizeLandmarkName (S " Eiffel ")) =
      normalizeLandmarkName (S " Eiffel ") :=
  ⟨claim_C8_normalizer.2.2.2.2.1 (S " Eiffel ") 101 (by decide),
   claim_C8_normalizer.2.1 (S " Eiffel ")⟩

/-- C10: the two implementations of `normalizeLandmarkName` — the
image-processing one (lower-case, remove all whitespace) and the seeding
one (lower-case, trim, remove all whitespace) — agree on every input. -/
theorem claim_C10_normalizers_agree :
    ∀ x, DynamoData.normalizeLandmarkName x = normalizeLandmarkName x := by
  intro x
  rw [DynamoData.normalizeLandmarkName, normalizeLandmarkName]
  by_cases h : x.isEmpty
  · simp only [if_pos h]
  · simp only [if_neg h]
    exact filter_trimJs _

/-! Order facts about the JS min/max helpers and the score constants. -/

theorem le_mathMax_left (a b : ℚ) : a ≤ mathMax a b := by
  unfold mathMax; split <;> linarith

theorem le_mathMax_right (a b : ℚ) : b ≤ mathMax a b := by
  unfold mathMax; split <;> linarith

theorem mathMax_le {a b c : ℚ} (ha : a ≤ c) (hb : b ≤ c) : mathMax a b ≤ c := by
  unfold mathMax; split <;> linarith

theorem mathMin_le_left (a b : ℚ) : mathMin a b ≤ a := by
  unfold mathMin; split <;> linarith

theorem mathMin_le_right (a b : ℚ) : mathMin a b ≤ b := by
  unfold mathMin; split <;> linarith

theorem le_mathMin {a b c : ℚ} (ha : c ≤ a) (hb : c ≤ b) : c ≤ mathMin a b := by
  unfold mathMin; split <;> linarith

theorem lt_mathMin {a b c : ℚ} (ha : c < a) (hb : c < b) : c < mathMin a b := by
  unfold mathMin; split <;> linarith

theorem mathMax_nonneg {a b : ℚ} (ha : 0 ≤ a) (_hb : 0 ≤ b) : 0 ≤ mathMax a b :=
  le_trans ha (le_mathMax_left a b)

theorem mkRat_7_10 : (mkRat 7 10 : ℚ) = 7/10 := by
  rw [Rat.mkRat_eq_div]; norm_num

theorem mkRat_9_10 : (mkRat 9 10 : ℚ) = 9/10 := by
  rw [Rat.mkRat_eq_div]; norm_num

theorem mkRat_1_2 : (mkRat 1 2 : ℚ) = 1/2 := by
  rw [Rat.mkRat_eq_div]; norm_num

theorem mkRat_2_5 : (mkRat 2 5 : ℚ) = 2/5 := by
  rw [Rat.mkRat_eq_div]; norm_num

theorem mkRat_3_10 : (mkRat 3 10 : ℚ) = 3/10 := by
  rw [Rat.mkRat_eq_div]; norm_num

/-- C7: `calculateSimilarity` always lies in `[0, 1]`; equal normalized
forms give exactly 1; a (proper) containment between distinct normalized
forms gives `max(0.7, shorter.length / longer.length)`. -/
theorem claim_C7_similarity (a b : List Nat) :
    (0 ≤ calculateSimilarity a b ∧ calculateSimilarity a b ≤ 1) ∧
    (normalizeLandmarkName a = normalizeLandmarkName b →
      calculateSimilarity a b = 1) ∧
    (normalizeLandmarkName a ≠ normalizeLandmarkName b →
      (strIncludes (normalizeLandmarkName a) (normalizeLandmarkName b) ∨
        strIncludes (normalizeLandmarkName b) (normalizeLandmarkName a)) →
      calculateSimilarity a b =
        mathMax (7/10)
          (mathMin ((normalizeLandmarkName a).length : ℚ)
              ((normalizeLandmarkName b).length : ℚ) /
            mathMax ((normalizeLandmarkName a).length : ℚ)
              ((normalizeLandmarkName b).length : ℚ))) := by
  refine ⟨?_, ?_, ?_⟩
  · simp only [calculateSimilarity]
    split_ifs with h1 h2 h3 h4
    · norm_num
    · constructor
      · exact mathMax_nonneg (by rw [mkRat_7_10]; norm_num)
          (by rw [qdiv_eq]
              exact div_nonneg (le_mathMin (Nat.cast_nonneg _) (Nat.cast_nonneg _))
                (mathMax_nonneg (Nat.cast_nonneg _) (Nat.cast_nonneg _)))
      · refine mathMax_le (by rw [mkRat_7_10]; norm_num) ?_
        rw [qdiv_eq]
        rcases eq_or_lt_of_le
            (mathMax_nonneg (Nat.cast_nonneg ((normalizeLandmarkName a).length))
              (Nat.cast_nonneg ((normalizeLandmarkName b).length))) with hz | hz
        · rw [← hz, div_zero]; norm_num
        · refine le_trans (div_le_one_of_le₀ ?_ (le_of_lt hz)) le_rfl
          exact le_trans (mathMin_le_left _ _) (le_mathMax_left _ _)
    · constructor
      · rw [qdiv_eq] at h4 ⊢
        rw [qadd_eq, qmul_eq, mkRat_9_10, mkRat_1_2, mkRat_2_5]
        refine le_of_lt (lt_mathMin (by norm_num) ?_)
        nlinarith
      · refine le_trans (mathMin_le_left _ _) ?_
        rw [mkRat_9_10]; norm_num
    · norm_num
    · norm_num
  · intro h
    simp only [calculateSimilarity, if_pos h]
  · intro hne hinc
    simp only [calculateSimilarity, if_neg hne, if_pos hinc, qdiv_eq, mkRat_7_10]

theorem claim_C7_witness :
    calculateSimilarity (S "Eiffel") (S "Eiffel Tower") =
      mathMax (7/10)
        (mathMin ((normalizeLandmarkName (S "Eiffel")).length : ℚ)
            ((normalizeLandmarkName (S "Eiffel Tower")).length : ℚ) /
          mathMax ((normalizeLandmarkName (S "Eiffel")).length : ℚ)
            ((normalizeLandmarkName (S "Eiffel Tower")).length : ℚ)) :=
  (claim_C7_similarity (S "Eiffel") (S "Eiffel Tower")).2.2 (by decide)
    (by decide)

/-- C9: `calculateSimilarity` never returns a value in `(0, 1/2]`: every
result is either exactly 0 or strictly above 1/2 (containment scores are
at least 0.7 and word-overlap scores exceed 0.5). -/
theorem claim_C9_score_gap (a b : List Nat) :
    calculateSimilarity a b = 0 ∨ 1/2 < calculateSimilarity a b := by
  simp only [calculateSimilarity]
  split_ifs with h1 h2 h3 h4
  · right; norm_num
  · right
    refine lt_of_lt_of_le ?_ (le_mathMax_left _ _)
    rw [mkRat_7_10]; norm_num
  · right
    rw [qdiv_eq] at h4
    rw [qadd_eq, qmul_eq, qdiv_eq, mkRat_9_10, mkRat_1_2, mkRat_2_5]
    refine lt_mathMin (by norm_num) ?_
    nlinarith
  · left; rfl
  · left; rfl

/-! Claim C5: the word-overlap step. -/

theorem matchCount_eq_countP (ws1 ws2 : List (List Nat)) :
    matchCount ws1 ws2 =
      ws1.countP (fun w => decide (2 < w.length) && wordMatches w ws2) := by
  induction ws1 with
  | nil => rfl
  | cons w rest ih =>
    simp only [matchCount, List.countP_cons, ih]
    by_cases hlen : w.length ≤ 2
    · have hp : (decide (2 < w.length) && wordMatches w ws2) = false := by
        have h2 : decide (2 < w.length) = false := by
          simp only [decide_eq_false_iff_not]; omega
        rw [h2, Bool.false_and]
      rw [if_pos hlen, hp]
      simp
    · have h2 : decide (2 < w.length) = true := by
        simp only [decide_eq_true_eq]; omega
      rw [if_neg hlen]
      by_cases hm : wordMatches w ws2
      · rw [if_pos hm, h2, hm, Bool.and_self, if_pos rfl]
      · have hmf : wordMatches w ws2 = false := by
          simpa using hm
        rw [if_neg hm, h2, hmf, Bool.and_false, if_neg (by simp)]
        simp

/-- Step 3 of the similarity function as claim C5 words it: tokens of
length ≤ 2 are discarded from both token lists before matching and
before forming the denominator, and the more-than-one-token test also
sees the filtered lists.  This definition exists only to be compared
with `calculateSimilarity`, which filters during matching but keeps the
unfiltered lists for the denominator and the guard. -/
def step3ScoreSpec (s1 s2 : List Nat) : ℚ :=
  let t1 := (wordsOf (normalizeLandmarkName s1)).filter fun w =>
    decide (2 < w.length)
  let t2 := (wordsOf (normalizeLandmarkName s2)).filter fun w =>
    decide (2 < w.length)
  if 1 < t1.length ∨ 1 < t2.length then
    let overlap := qdiv ((matchCount t1 t2 : ℕ) : ℚ)
      (mathMax ((t1.length : ℕ) : ℚ) ((t2.length : ℕ) : ℚ))
    if 0 < overlap then
      mathMin (mkRat 9 10) (qadd (mkRat 1 2) (qmul overlap (mkRat 2 5)))
    else 0
  else 0

set_option maxRecDepth 4000 in
/-- C5 counterexample: for `"x-great-wall"` against
`"great wall of china"` (normalized forms unequal, no containment) the
code returns 23/30 — the denominator counts the length-1 token `"x"` —
while the claim's formula (short tokens discarded before the denominator)
yields 9/10. -/
theorem claim_C5_counterexample :
    normalizeLandmarkName (S "x-great-wall") ≠
      normalizeLandmarkName (S "great wall of china") ∧
    strIncludes (normalizeLandmarkName (S "x-great-wall"))
      (normalizeLandmarkName (S "great wall of china")) = false ∧
    strIncludes (normalizeLandmarkName (S "great wall of china"))
      (normalizeLandmarkName (S "x-great-wall")) = false ∧
    calculateSimilarity (S "x-great-wall") (S "great wall of china") =
      mkRat 23 30 ∧
    step3ScoreSpec (S "x-great-wall") (S "great wall of china") =
      mkRat 9 10 ∧
    (mkRat 23 30 : ℚ) ≠ mkRat 9 10 := by
  decide

/-- C5 (amended): in the word-overlap step (normalized forms unequal,
neither contains the other, some unfiltered token list has more than one
token, at least one match), tokens of length ≤ 2 are skipped during
matching only: the overlap denominator is the larger of the two
unfiltered token-list lengths, and the result is
`min(0.9, 0.5 + overlap * 0.4)`; the match count equals the number of
first-side tokens of length > 2 with a partner of length > 2. -/
theorem claim_C5_word_overlap (s1 s2 : List Nat)
    (h1 : normalizeLandmarkName s1 ≠ normalizeLandmarkName s2)
    (h2 : strIncludes (normalizeLandmarkName s1)
      (normalizeLandmarkName s2) = false)
    (h3 : strIncludes (normalizeLandmarkName s2)
      (normalizeLandmarkName s1) = false)
    (h4 : 1 < (wordsOf (normalizeLandmarkName s1)).length ∨
          1 < (wordsOf (normalizeLandmarkName s2)).length)
    (h5 : 0 < matchCount (wordsOf (normalizeLandmarkName s1))
      (wordsOf (normalizeLandmarkName s2))) :
    calculateSimilarity s1 s2 =
      mathMin (9/10)
        (1/2 +
          ((matchCount (wordsOf (normalizeLandmarkName s1))
              (wordsOf (normalizeLandmarkName s2)) : ℚ) /
            mathMax ((wordsOf (normalizeLandmarkName s1)).length : ℚ)
              ((wordsOf (normalizeLandmarkName s2)).length : ℚ)) * (2/5)) ∧
    matchCount (wordsOf (normalizeLandmarkName s1))
        (wordsOf (normalizeLandmarkName s2)) =
      (wordsOf (normalizeLandmarkName s1)).countP
        (fun w => decide (2 < w.length) &&
          wordMatches w (wordsOf (normalizeLandmarkName s2))) := by
  refine ⟨?_, matchCount_eq_countP _ _⟩
  have hcont : ¬(strIncludes (normalizeLandmarkName s1)
      (normalizeLandmarkName s2) ∨
      strIncludes (normalizeLandmarkName s2)
        (normalizeLandmarkName s1)) := by
    simp [h2, h3]
  have hden : (0:ℚ) < mathMax ((wordsOf (normalizeLandmarkName s1)).length : ℚ)
      ((wordsOf (normalizeLandmarkName s2)).length : ℚ) := by
    rcases h4 with h | h
    · have hn : 0 < (wordsOf (normalizeLandmarkName s1)).length := by omega
      exact lt_of_lt_of_le (by exact_mod_cast hn) (le_mathMax_left _ _)
    · have hn : 0 < (wordsOf (normalizeLandmarkName s2)).length := by omega
      exact lt_of_lt_of_le (by exact_mod_cast hn) (le_mathMax_right _ _)
  have hguard : (0:ℚ) < qdiv
      ((matchCount (wordsOf (normalizeLandmarkName s1))
        (wordsOf (normalizeLandmarkName s2)) : ℕ) : ℚ)
      (mathMax ((wordsOf (normalizeLandmarkName s1)).length : ℚ)
        ((wordsOf (normalizeLandmarkName s2)).length : ℚ)) := by
    rw [qdiv_eq]
    exact div_pos (by exact_mod_cast h5) hden
  simp only [calculateSimilarity]
  rw [if_neg h1, if_neg hcont, if_pos h4, if_pos hguard,
    qadd_eq, qmul_eq, qdiv_eq, mkRat_9_10, mkRat_1_2, mkRat_2_5]

theorem claim_C5_witness :
    calculateSimilarity (S "x-great-wall") (S "great wall of china") =
      mathMin (9/10)
        (1/2 +
          ((matchCount (wordsOf (normalizeLandmarkName (S "x-great-wall")))
              (wordsOf (normalizeLandmarkName (S "great wall of china"))) : ℚ) /
            mathMax
              ((wordsOf (normalizeLandmarkName (S "x-great-wall"))).length : ℚ)
              ((wordsOf (normalizeLandmarkName (S "great wall of china"))).length : ℚ))
            * (2/5)) ∧
    matchCount (wordsOf (normalizeLandmarkName (S "x-great-wall")))
        (wordsOf (normalizeLandmarkName (S "great wall of china"))) =
      (wordsOf (normalizeLandmarkName (S "x-great-wall"))).countP
        (fun w => decide (2 < w.length) &&
          wordMatches w (wordsOf (normalizeLandmarkName (S "great wall of china")))) :=
  claim_C5_word_overlap (S "x-great-wall") (S "great wall of china")
    (by decide) (by decide) (by decide) (by decide) (by decide)

/-! Shape lemmas for the pipeline passes. -/

theorem tier1_eq_some {labels : List Label} {r : MatchResult}
    (h : tier1 labels = some r) :
    ∃ l ∈ labels, l.name ∈ popularDestinations ∧ 75 ≤ l.confidence ∧
      r = exactResult l := by
  induction labels with
  | nil => simp [tier1] at h
  | cons a rest ih =>
    simp only [tier1] at h
    by_cases ha : a.name ∈ popularDestinations ∧ 75 ≤ a.confidence
    · rw [if_pos ha] at h
      exact ⟨a, List.mem_cons_self a rest, ha.1, ha.2,
        (Option.some.inj h).symm⟩
    · rw [if_neg ha] at h
      obtain ⟨l, hl, h1, h2, h3⟩ := ih h
      exact ⟨l, List.mem_cons_of_mem a hl, h1, h2, h3⟩

theorem tier1_fires {labels : List Label}
    (h : ∃ l ∈ labels, l.name ∈ popularDestinations ∧ 75 ≤ l.confidence) :
    ∃ ls1 l ls2, labels = ls1 ++ l :: ls2 ∧
      (∀ x ∈ ls1, ¬(x.name ∈ popularDestinations ∧ 75 ≤ x.confidence)) ∧
      l.name ∈ popularDestinations ∧ 75 ≤ l.confidence ∧
      tier1 labels = some (exactResult l) := by
  induction labels with
  | nil => simp at h
  | cons a rest ih =>
    by_cases ha : a.name ∈ popularDestinations ∧ 75 ≤ a.confidence
    · refine ⟨[], a, rest, rfl, by simp, ha.1, ha.2, ?_⟩
      simp only [tier1, if_pos ha]
    · obtain ⟨l, hl, h1, h2⟩ := h
      rcases List.mem_cons.mp hl with rfl | hl'
      · exact absurd ⟨h1, h2⟩ ha
      · obtain ⟨ls1, l', ls2, heq, hnone, c1, c2, c3⟩ := ih ⟨l, hl', h1, h2⟩
        refine ⟨a :: ls1, l', ls2, by rw [heq, List.cons_append], ?_, c1, c2, ?_⟩
        · intro x hx
          rcases List.mem_cons.mp hx with rfl | hx'
          · exact ha
          · exact hnone x hx'
        · simp only [tier1, if_neg ha]
          exact c3

theorem findAlt_eq_some {l : Label} {ds : List LandmarkDef} {r : MatchResult}
    (h : findAlt l ds = some r) :
    ∃ d ∈ ds, l.name ∈ d.alternativeNames ∧ 75 ≤ l.confidence ∧
      r = altResult d.primaryName l.confidence := by
  induction ds with
  | nil => simp [findAlt] at h
  | cons d rest ih =>
    simp only [findAlt] at h
    by_cases hd : l.name ∈ d.alternativeNames ∧ 75 ≤ l.confidence
    · rw [if_pos hd] at h
      exact ⟨d, List.mem_cons_self d rest, hd.1, hd.2,
        (Option.some.inj h).symm⟩
    · rw [if_neg hd] at h
      obtain ⟨d', hd', h1, h2, h3⟩ := ih h
      exact ⟨d', List.mem_cons_of_mem d hd', h1, h2, h3⟩

theorem tier2_eq_some {labels : List Label} {r : MatchResult}
    (h : tier2 labels = some r) :
    ∃ l ∈ labels, ∃ d ∈ landmarkDefinitions, l.name ∈ d.alternativeNames ∧
      75 ≤ l.confidence ∧ r = altResult d.primaryName l.confidence := by
  induction labels with
  | nil => simp [tier2] at h
  | cons a rest ih =>
    simp only [tier2] at h
    rcases hfa : findAlt a landmarkDefinitions with _ | r'
    · rw [hfa] at h
      obtain ⟨l, hl, rest'⟩ := ih h
      exact ⟨l, List.mem_cons_of_mem a hl, rest'⟩
    · rw [hfa] at h
      obtain ⟨d, hd, h1, h2, h3⟩ := findAlt_eq_some hfa
      exact ⟨a, List.mem_cons_self a rest, d, hd, h1, h2,
        (Option.some.inj h).symm.trans h3⟩

theorem tier3_eq_some {labels : List Label} {r : MatchResult}
    (h : tier3 labels = some r) :
    ∃ nm score conf, tier3Fold labels = (some nm, score, conf) ∧
      r = simResult nm score conf := by
  unfold tier3 at h
  rcases hf : tier3Fold labels with ⟨nm?, score, conf⟩
  rw [hf] at h
  cases nm? with
  | none => cases h
  | some nm => exact ⟨nm, score, conf, rfl, (Option.some.inj h).symm⟩

theorem unknownAttempt_eq_some {labels : List Label} {best : Label}
    {r : MatchResult} (h : unknownAttempt labels best = some r) :
    85 ≤ best.confidence ∧ 2 ≤ (landmarkLabelsOf labels).length ∧
      r = unknownResult best := by
  unfold unknownAttempt at h
  by_cases hu : 85 ≤ best.confidence ∧ 2 ≤ (landmarkLabelsOf labels).length
  · rw [if_pos hu] at h
    exact ⟨hu.1, hu.2, (Option.some.inj h).symm⟩
  · rw [if_neg hu] at h
    cases h

theorem pass4_eq_some {labels : List Label} {r : MatchResult}
    (h : pass4 labels = some r) :
    ∃ best, (sortedNonGeneric labels).head? = some best ∧
      ((∃ nm score, keywordFold best.name = (some nm, score) ∧
          mkRat 3 10 ≤ score ∧ r = keywordResult nm best score) ∨
        (85 ≤ best.confidence ∧ 2 ≤ (landmarkLabelsOf labels).length ∧
          r = unknownResult best)) := by
  unfold pass4 at h
  by_cases h0 : 0 < (landmarkLabelsOf labels).length
  · rw [if_pos h0] at h
    split at h
    · cases h
    · rename_i best hh
      split at h
      · rename_i nm score hk
        by_cases hs : mkRat 3 10 ≤ score
        · rw [if_pos hs] at h
          exact ⟨best, hh, Or.inl ⟨nm, score, hk, hs,
            (Option.some.inj h).symm⟩⟩
        · rw [if_neg hs] at h
          exact ⟨best, hh, Or.inr (unknownAttempt_eq_some h)⟩
      · exact ⟨best, hh, Or.inr (unknownAttempt_eq_some h)⟩
  · rw [if_neg h0] at h
    cases h

/-! Claim C2: invariants of the returned record. -/

set_option maxRecDepth 2000 in
/-- C2 counterexample: on the empty label set the pipeline returns the
no-match record whose `landmarkName` (the spec's `canonicalId`) is
`"Unknown Landmark"`, not the empty string the claim requires. -/
theorem claim_C2_counterexample :
    (identifyLandmark []).isLandmark = false ∧
    (identifyLandmark []).landmarkName = S "Unknown Landmark" ∧
    (identifyLandmark []).landmarkName ≠ [] := by decide

/-- C2 (amended): `matched` holds iff the tier is not `None`; when
matched, the canonical id is the normalized raw name; when not matched,
the raw name is absent but the canonical id is the literal
`"Unknown Landmark"`, not `""`. -/
theorem claim_C2_result_invariants (labels : List Label) :
    ((identifyLandmark labels).isLandmark = true ↔
      (identifyLandmark labels).matchType ≠ MatchTier.noMatch) ∧
    ((identifyLandmark labels).isLandmark = true →
      ∃ raw, (identifyLandmark labels).rawLandmarkName = some raw ∧
        (identifyLandmark labels).landmarkName = normalizeLandmarkName raw) ∧
    ((identifyLandmark labels).isLandmark = false →
      (identifyLandmark labels).landmarkName = S "Unknown Landmark" ∧
      (identifyLandmark labels).rawLandmarkName = none) := by
  unfold identifyLandmark
  split
  · rename_i r h1
    obtain ⟨l, -, -, -, rfl⟩ := tier1_eq_some h1
    exact ⟨by simp [exactResult], fun _ => ⟨l.name, rfl, rfl⟩,
      fun hF => by simp [exactResult] at hF⟩
  split
  · rename_i r h2
    obtain ⟨l, -, d, -, -, -, rfl⟩ := tier2_eq_some h2
    exact ⟨by simp [altResult], fun _ => ⟨d.primaryName, rfl, rfl⟩,
      fun hF => by simp [altResult] at hF⟩
  split
  · rename_i r h3
    obtain ⟨nm, score, conf, -, rfl⟩ := tier3_eq_some h3
    exact ⟨by simp [simResult], fun _ => ⟨nm, rfl, rfl⟩,
      fun hF => by simp [simResult] at hF⟩
  split
  · rename_i r h4
    obtain ⟨best, -, hcase⟩ := pass4_eq_some h4
    rcases hcase with ⟨nm, score, -, -, rfl⟩ | ⟨-, -, rfl⟩
    · exact ⟨by simp [keywordResult], fun _ => ⟨nm, rfl, rfl⟩,
        fun hF => by simp [keywordResult] at hF⟩
    · exact ⟨by simp [unknownResult], fun _ => ⟨best.name, rfl, rfl⟩,
        fun hF => by simp [unknownResult] at hF⟩
  · exact ⟨by simp [noMatchResult], fun hT => by simp [noMatchResult] at hT,
      fun _ => ⟨rfl, rfl⟩⟩

theorem claim_C2_witness :
    ∃ raw, (identifyLandmark [⟨S "Eiffel Tower", 96⟩]).rawLandmarkName =
        some raw ∧
      (identifyLandmark [⟨S "Eiffel Tower", 96⟩]).landmarkName =
        normalizeLandmarkName raw :=
  (claim_C2_result_invariants [⟨S "Eiffel Tower", 96⟩]).2.1 (by decide)

/-! Claim C1: the exact tier. -/

set_option maxRecDepth 2000 in
/-- C1 counterexample: the label `"eiffel tower"` (confidence 90)
normalizes to the normalized primary name of the Eiffel Tower entry, yet
the pipeline returns a Similarity match, not an Exact one: the first
pass compares raw label names with primary names by string equality, not
by normalization. -/
theorem claim_C1_counterexample :
    normalizeLandmarkName (S "eiffel tower") =
      normalizeLandmarkName (S "Eiffel Tower") ∧
    S "Eiffel Tower" ∈ popularDestinations ∧
    (75:ℚ) ≤ 90 ∧
    (identifyLandmark [Label.mk (S "eiffel tower") 90]).matchType =
      MatchTier.similarity ∧
    MatchTier.similarity ≠ MatchTier.exact := by decide

/-- C1 (amended): if some label's raw name equals (string equality, not
normalization) a registry primary name and its confidence is at least
75, the pipeline returns the Exact match of the first such label in
input order — the input splits as a prefix containing no qualifying
label, that label, and a suffix — with canonical id that label's
normalized name, regardless of what other labels are present. -/
theorem claim_C1_exact_tier (labels : List Label)
    (h : ∃ l ∈ labels, l.name ∈ popularDestinations ∧ 75 ≤ l.confidence) :
    ∃ ls1 l ls2, labels = ls1 ++ l :: ls2 ∧
      (∀ x ∈ ls1, ¬(x.name ∈ popularDestinations ∧ 75 ≤ x.confidence)) ∧
      l.name ∈ popularDestinations ∧ 75 ≤ l.confidence ∧
      identifyLandmark labels = exactResult l ∧
      (identifyLandmark labels).matchType = MatchTier.exact ∧
      (identifyLandmark labels).landmarkName =
        normalizeLandmarkName l.name := by
  obtain ⟨ls1, l, ls2, heq, hnone, h1, h2, h3⟩ := tier1_fires h
  have hid : identifyLandmark labels = exactResult l := by
    unfold identifyLandmark
    rw [h3]
  exact ⟨ls1, l, ls2, heq, hnone, h1, h2, hid, by rw [hid]; rfl,
    by rw [hid]; rfl⟩

set_option maxRecDepth 4000 in
theorem claim_C1_witness :
    (∃ ls1 l ls2,
      [Label.mk (S "Dog") 99, Label.mk (S "Colosseum") 80,
          Label.mk (S "Eiffel Tower") 90] = ls1 ++ l :: ls2 ∧
      (∀ x ∈ ls1, ¬(x.name ∈ popularDestinations ∧ 75 ≤ x.confidence)) ∧
      l.name ∈ popularDestinations ∧ 75 ≤ l.confidence ∧
      identifyLandmark [Label.mk (S "Dog") 99, Label.mk (S "Colosseum") 80,
          Label.mk (S "Eiffel Tower") 90] = exactResult l ∧
      (identifyLandmark [Label.mk (S "Dog") 99, Label.mk (S "Colosseum") 80,
          Label.mk (S "Eiffel Tower") 90]).matchType = MatchTier.exact ∧
      (identifyLandmark [Label.mk (S "Dog") 99, Label.mk (S "Colosseum") 80,
          Label.mk (S "Eiffel Tower") 90]).landmarkName =
        normalizeLandmarkName l.name) ∧
    identifyLandmark [Label.mk (S "Dog") 99, Label.mk (S "Colosseum") 80,
        Label.mk (S "Eiffel Tower") 90] =
      exactResult (Label.mk (S "Colosseum") 80) :=
  ⟨claim_C1_exact_tier
    [Label.mk (S "Dog") 99, Label.mk (S "Colosseum") 80,
      Label.mk (S "Eiffel Tower") 90] (by decide), by decide⟩

/-! Claim C3: what the similarity pass stores in `similarityScore`. -/

/-- Invariant of the third-pass state: any recorded best match comes from
an actual (label, definition) pair, the stored score is that pair's
combined score — similarity times confidence / 100 — and the stored
confidence is that label's confidence. -/
def tier3Inv (labels : List Label) (st : Option (List Nat) × ℚ × ℚ) : Prop :=
  ∀ nm, st.1 = some nm →
    ∃ l ∈ labels, ∃ d ∈ landmarkDefinitions, 70 ≤ l.confidence ∧
      nm = d.primaryName ∧ st.2.2 = l.confidence ∧
      mkRat 7 10 ≤ pairSim l.name d ∧
      st.2.1 = qmul (pairSim l.name d) (qdiv l.confidence ((100 : ℕ) : ℚ))

theorem tier3Step_inv {labels : List Label} {l : Label} (hl : l ∈ labels)
    (hc : 70 ≤ l.confidence) {st : Option (List Nat) × ℚ × ℚ}
    (h : tier3Inv labels st) {d : LandmarkDef}
    (hd : d ∈ landmarkDefinitions) :
    tier3Inv labels (tier3Step l.confidence l.name st d) := by
  intro nm hnm
  simp only [tier3Step] at hnm
  by_cases hcond : mkRat 7 10 ≤ pairSim l.name d ∧
      st.2.1 < qmul (pairSim l.name d) (qdiv l.confidence ((100 : ℕ) : ℚ))
  · rw [if_pos hcond] at hnm
    simp only [tier3Step, if_pos hcond]
    exact ⟨l, hl, d, hd, hc, (Option.some.inj hnm).symm, rfl, hcond.1, rfl⟩
  · rw [if_neg hcond] at hnm
    simp only [tier3Step, if_neg hcond]
    exact h nm hnm

theorem tier3FoldInner_inv {labels : List Label} {l : Label} (hl : l ∈ labels)
    (hc : 70 ≤ l.confidence) (ds : List LandmarkDef)
    (hds : ∀ d ∈ ds, d ∈ landmarkDefinitions)
    (st : Option (List Nat) × ℚ × ℚ) (h : tier3Inv labels st) :
    tier3Inv labels (ds.foldl (tier3Step l.confidence l.name) st) := by
  induction ds generalizing st with
  | nil => exact h
  | cons d rest ih =>
    rw [List.foldl_cons]
    exact ih (fun d' hd' => hds d' (List.mem_cons_of_mem d hd')) _
      (tier3Step_inv hl hc h (hds d (List.mem_cons_self d rest)))

theorem tier3Fold_inv (labels : List Label) :
    tier3Inv labels (tier3Fold labels) := by
  unfold tier3Fold
  suffices hgen : ∀ ls : List Label, (∀ x ∈ ls, x ∈ labels) →
      ∀ st, tier3Inv labels st → tier3Inv labels (ls.foldl
        (fun st l => if l.confidence < 70 then st
          else landmarkDefinitions.foldl (tier3Step l.confidence l.name) st)
        st) by
    refine hgen labels (fun x hx => hx) _ ?_
    intro nm hnm
    simp at hnm
  intro ls
  induction ls with
  | nil => exact fun _ _ h => h
  | cons a rest ih =>
    intro hsub st h
    rw [List.foldl_cons]
    refine ih (fun x hx => hsub x (List.mem_cons_of_mem a hx)) _ ?_
    by_cases hca : a.confidence < 70
    · rw [if_pos hca]; exact h
    · rw [if_neg hca]
      exact tier3FoldInner_inv (hsub a (List.mem_cons_self a rest))
        (le_of_not_lt hca) landmarkDefinitions (fun d hd => hd) st h

set_option maxRecDepth 4000 in
/-- C3 counterexample: for the single label `"Eiffel"` (confidence 80)
the winning pair's similarity is 0.7, but the returned `similarityScore`
field is 0.56 = 0.7 · 80/100 — the confidence-weighted combined score,
not the similarity value the claim requires. -/
theorem claim_C3_counterexample :
    calculateSimilarity (S "Eiffel") (S "Eiffel Tower") = mkRat 7 10 ∧
    pairSim (S "Eiffel")
      ⟨S "Eiffel Tower",
       [S "Tour Eiffel", S "Iron Lady", S "La Tour Eiffel"],
       [S "paris", S "france", S "iron", S "tower"]⟩ = mkRat 7 10 ∧
    (identifyLandmark [Label.mk (S "Eiffel") 80]).matchType =
      MatchTier.similarity ∧
    (identifyLandmark [Label.mk (S "Eiffel") 80]).similarityScore =
      some (mkRat 14 25) ∧
    (mkRat 14 25 : ℚ) ≠ mkRat 7 10 := by decide

/-- C3 (amended): when the pipeline returns a Similarity match, there is
a winning (label, definition) pair with similarity at least 0.7 such
that the result's `confidence` is that label's confidence and its
`similarityScore` field holds the combined score — the pair's similarity
times (confidence / 100) — not the bare similarity; for every other
tier the `similarityScore` field is absent. -/
theorem claim_C3_similarity_score (labels : List Label) :
    ((identifyLandmark labels).matchType = MatchTier.similarity →
      ∃ l ∈ labels, ∃ d ∈ landmarkDefinitions, 70 ≤ l.confidence ∧
        mkRat 7 10 ≤ pairSim l.name d ∧
        (identifyLandmark labels).rawLandmarkName = some d.primaryName ∧
        (identifyLandmark labels).confidence = l.confidence ∧
        (identifyLandmark labels).similarityScore =
          some (pairSim l.name d * (l.confidence / 100))) ∧
    ((identifyLandmark labels).matchType ≠ MatchTier.similarity →
      (identifyLandmark labels).similarityScore = none) := by
  have hcast : (((100 : ℕ) : ℚ)) = 100 := by norm_num
  unfold identifyLandmark
  split
  · rename_i r h1
    obtain ⟨l, -, -, -, rfl⟩ := tier1_eq_some h1
    exact ⟨fun hT => by simp [exactResult] at hT, fun _ => rfl⟩
  split
  · rename_i r h2
    obtain ⟨l, -, d, -, -, -, rfl⟩ := tier2_eq_some h2
    exact ⟨fun hT => by simp [altResult] at hT, fun _ => rfl⟩
  split
  · rename_i r h3
    obtain ⟨nm, score, conf, hf, rfl⟩ := tier3_eq_some h3
    refine ⟨fun _ => ?_, fun hNe => absurd rfl hNe⟩
    obtain ⟨l, hl, d, hd, hc, hnm, hconf, hsim, hscore⟩ :=
      tier3Fold_inv labels nm (by rw [hf])
    refine ⟨l, hl, d, hd, hc, hsim, ?_, ?_, ?_⟩
    · simp only [simResult, hnm]
    · have : (simResult nm score conf).confidence = conf := rfl
      rw [this]
      have hc2 : (tier3Fold labels).2.2 = conf := by rw [hf]
      rw [← hc2, hconf]
    · have : (simResult nm score conf).similarityScore = some score := rfl
      rw [this]
      have hc1 : (tier3Fold labels).2.1 = score := by rw [hf]
      rw [← hc1, hscore, qmul_eq, qdiv_eq, hcast]
  split
  · rename_i r h4
    obtain ⟨best, -, hcase⟩ := pass4_eq_some h4
    rcases hcase with ⟨nm, score, -, -, rfl⟩ | ⟨-, -, rfl⟩
    · exact ⟨fun hT => by simp [keywordResult] at hT, fun _ => rfl⟩
    · exact ⟨fun hT => by simp [unknownResult] at hT, fun _ => rfl⟩
  · exact ⟨fun hT => by simp [noMatchResult] at hT, fun _ => rfl⟩

theorem claim_C3_witness :
    ∃ l ∈ [Label.mk (S "Eiffel") 80], ∃ d ∈ landmarkDefinitions,
      70 ≤ l.confidence ∧ mkRat 7 10 ≤ pairSim l.name d ∧
      (identifyLandmark [Label.mk (S "Eiffel") 80]).rawLandmarkName =
        some d.primaryName ∧
      (identifyLandmark [Label.mk (S "Eiffel") 80]).confidence =
        l.confidence ∧
      (identifyLandmark [Label.mk (S "Eiffel") 80]).similarityScore =
        some (pairSim l.name d * (l.confidence / 100)) :=
  (claim_C3_similarity_score [Label.mk (S "Eiffel") 80]).1 (by decide)

/-! Claim C4: the generic (unknown-landmark) fallback. -/

theorem insertDesc_mem {x l : Label} {t : List Label} :
    x ∈ insertDesc l t ↔ x = l ∨ x ∈ t := by
  induction t with
  | nil => simp [insertDesc]
  | cons a rest ih =>
    simp only [insertDesc]
    by_cases h : l.confidence < a.confidence
    · rw [if_pos h]
      simp only [List.mem_cons, ih]
      tauto
    · rw [if_neg h]
      simp only [List.mem_cons]

theorem sortDesc_mem {x : Label} {t : List Label} :
    x ∈ sortDesc t ↔ x ∈ t := by
  induction t with
  | nil => simp [sortDesc]
  | cons a rest ih =>
    simp only [sortDesc, insertDesc_mem, List.mem_cons, ih]

theorem sortDesc_head_max (t : List Label) (b : Label) (tl : List Label)
    (h : sortDesc t = b :: tl) : ∀ x ∈ t, x.confidence ≤ b.confidence := by
  induction t generalizing b tl with
  | nil => cases h
  | cons a rest ih =>
    intro x hx
    rw [sortDesc] at h
    rcases hs : sortDesc rest with _ | ⟨h0, t0⟩
    · rw [hs] at h
      simp only [insertDesc] at h
      obtain ⟨rfl, rfl⟩ := List.cons.inj h
      rcases List.mem_cons.mp hx with rfl | hx'
      · exact le_rfl
      · exfalso
        have hmem : x ∈ sortDesc rest := sortDesc_mem.mpr hx'
        rw [hs] at hmem
        simp at hmem
    · rw [hs] at h
      simp only [insertDesc] at h
      by_cases hc : a.confidence < h0.confidence
      · rw [if_pos hc] at h
        obtain ⟨rfl, -⟩ := List.cons.inj h
        rcases List.mem_cons.mp hx with rfl | hx'
        · exact le_of_lt hc
        · exact ih h0 t0 hs x hx'
      · rw [if_neg hc] at h
        obtain ⟨rfl, -⟩ := List.cons.inj h
        rcases List.mem_cons.mp hx with rfl | hx'
        · exact le_rfl
        · exact le_trans (ih h0 t0 hs x hx') (le_of_not_lt hc)

set_option maxRecDepth 8000 in
/-- C4 counterexample: with labels Ancient Ruins (90), Historical Site
(88) — two landmark-related labels of confidence ≥ 85 — and Dog (95),
tiers 1–4 do not fire, and the Generic result's `rawLandmarkName` is
`"Dog"`: the highest-confidence non-generic label overall, which is not
landmark-related, contradicting the claim that the returned label is the
highest-confidence landmark-related one. -/
theorem claim_C4_counterexample :
    tier1 [Label.mk (S "Ancient Ruins") 90, Label.mk (S "Historical Site") 88,
      Label.mk (S "Dog") 95] = none ∧
    tier2 [Label.mk (S "Ancient Ruins") 90, Label.mk (S "Historical Site") 88,
      Label.mk (S "Dog") 95] = none ∧
    tier3 [Label.mk (S "Ancient Ruins") 90, Label.mk (S "Historical Site") 88,
      Label.mk (S "Dog") 95] = none ∧
    2 ≤ (landmarkLabelsOf [Label.mk (S "Ancient Ruins") 90,
      Label.mk (S "Historical Site") 88, Label.mk (S "Dog") 95]).length ∧
    identifyLandmark [Label.mk (S "Ancient Ruins") 90,
      Label.mk (S "Historical Site") 88, Label.mk (S "Dog") 95] =
      unknownResult (Label.mk (S "Dog") 95) ∧
    isLandmarkRelatedLabel (S "Dog") = false ∧
    isLandmarkRelatedLabel (S "Ancient Ruins") = true := by decide

/-- C4 (amended): if at least two labels are landmark-related with
confidence ≥ 85, tiers 1–3 return nothing, the keyword scoring of the
best label does not reach 0.3, and the highest-confidence label with
confidence ≥ 75 whose name is not a generic term itself has confidence ≥
85, then the pipeline returns that label (which need not be
landmark-related) as a Generic/unknown match; it is a maximal-confidence
element of the non-generic pool. -/
theorem claim_C4_generic_fallback (labels : List Label)
    (h1 : tier1 labels = none) (h2 : tier2 labels = none)
    (h3 : tier3 labels = none) (best : Label)
    (h4 : (sortedNonGeneric labels).head? = some best)
    (h5 : (keywordFold best.name).1 = none ∨
      (keywordFold best.name).2 < mkRat 3 10)
    (h6 : 2 ≤ (landmarkLabelsOf labels).length)
    (h7 : 85 ≤ best.confidence) :
    identifyLandmark labels = unknownResult best ∧
    best ∈ nonGenericOf labels ∧
    (∀ x ∈ nonGenericOf labels, x.confidence ≤ best.confidence) := by
  have hp4 : pass4 labels = some (unknownResult best) := by
    unfold pass4
    rw [if_pos (show 0 < (landmarkLabelsOf labels).length by omega)]
    split
    · rename_i heq
      rw [heq] at h4
      cases h4
    · rename_i b heq
      rw [heq] at h4
      obtain rfl : b = best := Option.some.inj h4
      split
      · rename_i nm score hk
        rcases h5 with h5 | h5
        · rw [hk] at h5
          cases h5
        · rw [hk] at h5
          rw [if_neg (not_le_of_lt h5)]
          unfold unknownAttempt
          rw [if_pos ⟨h7, h6⟩]
      · unfold unknownAttempt
        rw [if_pos ⟨h7, h6⟩]
  have hid : identifyLandmark labels = unknownResult best := by
    unfold identifyLandmark
    rw [h1, h2, h3, hp4]
  obtain ⟨tl, htl⟩ : ∃ tl, sortDesc (nonGenericOf labels) = best :: tl := by
    rcases hsg : sortedNonGeneric labels with _ | ⟨b0, t0⟩
    · rw [hsg] at h4
      cases h4
    · rw [hsg] at h4
      obtain rfl : b0 = best := Option.some.inj h4
      exact ⟨t0, hsg⟩
  refine ⟨hid, ?_, ?_⟩
  · refine sortDesc_mem.mp ?_
    rw [htl]
    exact List.mem_cons_self best tl
  · exact sortDesc_head_max (nonGenericOf labels) best tl htl

set_option maxRecDepth 8000 in
theorem claim_C4_witness :
    identifyLandmark [Label.mk (S "Ancient Ruins") 90,
      Label.mk (S "Historical Site") 88] =
      unknownResult (Label.mk (S "Ancient Ruins") 90) ∧
    Label.mk (S "Ancient Ruins") 90 ∈ nonGenericOf
      [Label.mk (S "Ancient Ruins") 90, Label.mk (S "Historical Site") 88] ∧
    (∀ x ∈ nonGenericOf [Label.mk (S "Ancient Ruins") 90,
        Label.mk (S "Historical Site") 88],
      x.confidence ≤ (Label.mk (S "Ancient Ruins") 90).confidence) :=
  claim_C4_generic_fallback
    [Label.mk (S "Ancient Ruins") 90, Label.mk (S "Historical Site") 88]
    (by decide) (by decide) (by decide)
    (Label.mk (S "Ancient Ruins") 90)
    (by decide) (by decide) (by decide) (by decide)

/-! Claim C6: labels with empty (all-whitespace) names. -/

theorem strIncludes_nil (big : List Nat) : strIncludes big [] = true := by
  cases big with
  | nil => rfl
  | cons b t => rfl

theorem qdiv_zero_left (b : ℚ) : qdiv 0 b = 0 := by
  rw [qdiv_eq]
  exact zero_div b

theorem calculateSimilarity_empty {a b : List Nat}
    (ha : normalizeLandmarkName a = [])
    (hb : normalizeLandmarkName b ≠ []) :
    calculateSimilarity a b = mkRat 7 10 := by
  have h1 : ¬(normalizeLandmarkName a = normalizeLandmarkName b) :=
    fun hEq => hb (hEq.symm.trans ha)
  have h2 : strIncludes (normalizeLandmarkName b)
      (normalizeLandmarkName a) = true := by
    rw [ha]
    exact strIncludes_nil _
  simp only [calculateSimilarity]
  rw [if_neg h1, if_pos (Or.inr h2), ha]
  simp only [List.length_nil, Nat.cast_zero]
  have hx : (0:ℚ) ≤ ((normalizeLandmarkName b).length : ℚ) :=
    Nat.cast_nonneg _
  rw [show mathMin 0 ((normalizeLandmarkName b).length : ℚ) = 0 from by
    unfold mathMin; rw [if_pos hx]]
  rw [qdiv_zero_left]
  unfold mathMax
  rw [if_neg (by decide)]

theorem pairSim_empty {name : List Nat}
    (hname : normalizeLandmarkName name = []) (d : LandmarkDef)
    (hp : normalizeLandmarkName d.primaryName ≠ [])
    (halts : ∀ alt ∈ d.alternativeNames, normalizeLandmarkName alt ≠ []) :
    pairSim name d = mkRat 7 10 := by
  unfold pairSim
  rw [calculateSimilarity_empty hname hp]
  have hgen : ∀ alts : List (List Nat),
      (∀ alt ∈ alts, normalizeLandmarkName alt ≠ []) →
      alts.foldl (fun s alt =>
        let a := calculateSimilarity name alt
        if s < a then a else s) (mkRat 7 10) = mkRat 7 10 := by
    intro alts
    induction alts with
    | nil => intro _; rfl
    | cons alt rest ih =>
      intro hne
      rw [List.foldl_cons]
      have ha : calculateSimilarity name alt = mkRat 7 10 :=
        calculateSimilarity_empty hname
          (hne alt (List.mem_cons_self alt rest))
      simp only [ha, lt_irrefl, if_neg (lt_irrefl (mkRat 7 10))]
      exact ih fun alt' h' => hne alt' (List.mem_cons_of_mem alt h')
  exact hgen d.alternativeNames halts

theorem registry_nonempty_normals :
    (∀ p ∈ popularDestinations, normalizeLandmarkName p ≠ []) ∧
    (∀ d ∈ landmarkDefinitions, normalizeLandmarkName d.primaryName ≠ [] ∧
      ∀ alt ∈ d.alternativeNames, normalizeLandmarkName alt ≠ []) := by
  decide

theorem tier1_empty_names {labels : List Label}
    (h : ∀ l ∈ labels, normalizeLandmarkName l.name = []) :
    tier1 labels = none := by
  induction labels with
  | nil => rfl
  | cons a rest ih =>
    simp only [tier1]
    rw [if_neg fun hcond =>
      registry_nonempty_normals.1 a.name hcond.1
        (h a (List.mem_cons_self a rest))]
    exact ih fun l hl => h l (List.mem_cons_of_mem a hl)

theorem findAlt_empty_name {l : Label}
    (hl : normalizeLandmarkName l.name = []) (ds : List LandmarkDef)
    (hds : ∀ d ∈ ds, ∀ alt ∈ d.alternativeNames,
      normalizeLandmarkName alt ≠ []) :
    findAlt l ds = none := by
  induction ds with
  | nil => rfl
  | cons d rest ih =>
    simp only [findAlt]
    rw [if_neg fun hcond =>
      hds d (List.mem_cons_self d rest) l.name hcond.1 hl]
    exact ih fun d' hd' => hds d' (List.mem_cons_of_mem d hd')

theorem tier2_empty_names {labels : List Label}
    (h : ∀ l ∈ labels, normalizeLandmarkName l.name = []) :
    tier2 labels = none := by
  induction labels with
  | nil => rfl
  | cons a rest ih =>
    simp only [tier2]
    rw [findAlt_empty_name (h a (List.mem_cons_self a rest))
      landmarkDefinitions
      (fun d hd => (registry_nonempty_normals.2 d hd).2)]
    exact ih fun l hl => h l (List.mem_cons_of_mem a hl)

theorem foldl_tier3_const (c : ℚ) (name : List Nat)
    (ds : List LandmarkDef)
    (hds : ∀ d ∈ ds, pairSim name d = mkRat 7 10)
    (st : Option (List Nat) × ℚ × ℚ)
    (hst : st.2.1 = qmul (mkRat 7 10) (qdiv c ((100 : ℕ) : ℚ))) :
    ds.foldl (tier3Step c name) st = st := by
  induction ds with
  | nil => rfl
  | cons d rest ih =>
    rw [List.foldl_cons]
    have hstep : tier3Step c name st d = st := by
      simp only [tier3Step, hds d (List.mem_cons_self d rest), hst]
      rw [if_neg fun hcond => lt_irrefl _ hcond.2]
    rw [hstep]
    exact ih fun d' hd' => hds d' (List.mem_cons_of_mem d hd')

theorem foldl_tier3_from_zero (c : ℚ) (name : List Nat) (hc : 70 ≤ c)
    (d0 : LandmarkDef) (rest : List LandmarkDef)
    (hds : ∀ d ∈ d0 :: rest, pairSim name d = mkRat 7 10) :
    (d0 :: rest).foldl (tier3Step c name) (none, 0, 0) =
      (some d0.primaryName, qmul (mkRat 7 10) (qdiv c ((100 : ℕ) : ℚ)), c) := by
  rw [List.foldl_cons]
  have hcomb : (0:ℚ) < qmul (mkRat 7 10) (qdiv c ((100 : ℕ) : ℚ)) := by
    rw [qmul_eq, qdiv_eq, mkRat_7_10,
      show (((100 : ℕ)) : ℚ) = 100 by norm_num]
    have hcpos : (0:ℚ) < c := lt_of_lt_of_le (by norm_num) hc
    positivity
  have hstep : tier3Step c name (none, 0, 0) d0 =
      (some d0.primaryName, qmul (mkRat 7 10) (qdiv c ((100 : ℕ) : ℚ)), c) := by
    simp only [tier3Step, hds d0 (List.mem_cons_self d0 rest)]
    rw [if_pos ⟨le_refl _, hcomb⟩]
  rw [hstep]
  exact foldl_tier3_const c name rest
    (fun d hd => hds d (List.mem_cons_of_mem d0 hd)) _ rfl

set_option maxRecDepth 4000 in
/-- C6 counterexample: the single label with empty name and confidence 80
produces a Similarity match (with the first registry entity), because
the empty normalized name is a substring of every primary name; the
claim says an empty name never causes a match. -/
theorem claim_C6_counterexample :
    normalizeLandmarkName (S "") = [] ∧
    (identifyLandmark [Label.mk (S "") 80]).isLandmark = true ∧
    (identifyLandmark [Label.mk (S "") 80]).matchType =
      MatchTier.similarity ∧
    (identifyLandmark [Label.mk (S "") 80]).landmarkName =
      S "eiffeltower" := by decide

/-- C6 (amended): a label whose name normalizes to the empty string never
fires the Exact or Alternative passes (they compare raw names against
the non-empty registry names), and the pipeline never errors on it; but
at the Similarity pass the empty normalized name is treated as contained
in every registry name with score 0.7, so a lone empty-name label with
confidence ≥ 70 yields a Similarity match with the first registry
entity and combined score `0.7 · c/100`. -/
theorem claim_C6_empty_name (name : List Nat) (c : ℚ)
    (hname : normalizeLandmarkName name = []) (hc : 70 ≤ c) :
    (∀ labels : List Label,
      (∀ l ∈ labels, normalizeLandmarkName l.name = []) →
      tier1 labels = none ∧ tier2 labels = none) ∧
    identifyLandmark [Label.mk name c] =
      simResult (S "Eiffel Tower") (7/10 * (c / 100)) c := by
  refine ⟨fun labels hall => ⟨tier1_empty_names hall, tier2_empty_names hall⟩, ?_⟩
  have hall1 : ∀ l ∈ [Label.mk name c], normalizeLandmarkName l.name = [] := by
    intro l hl
    rcases List.mem_singleton.mp hl with rfl
    exact hname
  have hdefs : ∀ d ∈ landmarkDefinitions, pairSim name d = mkRat 7 10 :=
    fun d hd => pairSim_empty hname d
      (registry_nonempty_normals.2 d hd).1
      (registry_nonempty_normals.2 d hd).2
  have hfold : tier3Fold [Label.mk name c] =
      (some (S "Eiffel Tower"), qmul (mkRat 7 10) (qdiv c ((100 : ℕ) : ℚ)), c) := by
    unfold tier3Fold
    rw [List.foldl_cons, List.foldl_nil]
    rw [if_neg (not_lt.mpr hc)]
    exact foldl_tier3_from_zero c name hc _ _ hdefs
  have htier3 : tier3 [Label.mk name c] =
      some (simResult (S "Eiffel Tower")
        (qmul (mkRat 7 10) (qdiv c ((100 : ℕ) : ℚ))) c) := by
    unfold tier3
    rw [hfold]
  have hval : qmul (mkRat 7 10) (qdiv c ((100 : ℕ) : ℚ)) = 7/10 * (c / 100) := by
    rw [qmul_eq, qdiv_eq, mkRat_7_10, show (((100 : ℕ)) : ℚ) = 100 by norm_num]
  unfold identifyLandmark
  rw [tier1_empty_names hall1, tier2_empty_names hall1, htier3, hval]

theorem claim_C6_witness :
    identifyLandmark [Label.mk (S " ") 80] =
      simResult (S "Eiffel Tower") (7/10 * (80 / 100)) 80 :=
  (claim_C6_empty_name (S " ") 80 (by decide) (by decide)).2
